import Mathlib

/-!
Shallow embedding of the orchestration code in the landscape_metrics_course
notebooks (`hillslope_nonlineardiffusion_class_notebook.ipynb` and
`channels_hillslopes_notebook.ipynb`, the latter containing an embedded copy
of the linear-diffusion notebook).

The notebooks author only glue code: a rectangular grid with a per-node
elevation field, a partition of the nodes into core and boundary nodes, and a
time-stepping loop that, each iteration, adds a uniform uplift increment to
the core nodes, invokes an external transport component's `run_one_step`,
optionally invokes flow routing and stream-power erosion, and advances the
run clock by `dt`.  The external landlab components (`LinearDiffuser`,
`TaylorNonLinearDiffuser`, `FlowAccumulator`, `StreamPowerEroder`) are not
part of this repository; they appear here as abstract function parameters.
Real-valued node fields are modelled as functions `Fin N → ℚ` (exact
rationals standing for the floating-point arrays), with `N` the number of
grid nodes.
-/

/-- The mutable simulation state owned by the notebooks: the per-node
`topographic__elevation` field, the derived fields recomputed by flow
routing (`drainage_area`, `topographic__steepest_slope`), and the run clock
(`total_time` in the channels notebook, `time_counter` in the hillslope
notebook). -/
structure SimState (N : ℕ) where
  topographic__elevation : Fin N → ℚ
  drainage_area : Fin N → ℚ
  topographic__steepest_slope : Fin N → ℚ
  total_time : ℚ

/-- Operation (a) of the loop body: `z[core_nodes] += increment`, adding a
per-node uplift increment to every core node and leaving every other node's
elevation entry untouched.  `core i = true` marks node `i` as a core node. -/
def upliftOp {N : ℕ} (core : Fin N → Bool) (inc : Fin N → ℚ)
    (s : SimState N) : SimState N :=
  { s with topographic__elevation :=
      (fun i => if core i then s.topographic__elevation i + inc i
                else s.topographic__elevation i) }

/-- Operation (b): the diffusive transport component's `run_one_step(dt)`,
which mutates the elevation field in place.  The numerical scheme lives in
the external library, so the component is an abstract function
`transport : dt → elevation → elevation`. -/
def transportOp {N : ℕ} (transport : ℚ → (Fin N → ℚ) → Fin N → ℚ)
    (dt : ℚ) (s : SimState N) : SimState N :=
  { s with topographic__elevation := transport dt s.topographic__elevation }

/-- Operation (c): the flow router's `run_one_step()`, which recomputes the
derived fields `drainage_area` and `topographic__steepest_slope` from the
current elevation and does not touch the elevation itself.  `router` is the
abstract external component, returning the pair (drainage area, slope). -/
def routeOp {N : ℕ} (router : (Fin N → ℚ) → (Fin N → ℚ) × (Fin N → ℚ))
    (s : SimState N) : SimState N :=
  { s with drainage_area := (router s.topographic__elevation).1,
           topographic__steepest_slope := (router s.topographic__elevation).2 }

/-- Operation (d): the stream-power eroder's `run_one_step(dt)`, which
mutates the elevation based on the current drainage area and steepest slope.
`eroder` is the abstract external component. -/
def erodeOp {N : ℕ}
    (eroder : ℚ → (Fin N → ℚ) → (Fin N → ℚ) → (Fin N → ℚ) → Fin N → ℚ)
    (dt : ℚ) (s : SimState N) : SimState N :=
  { s with topographic__elevation :=
      (eroder dt s.drainage_area s.topographic__steepest_slope
        s.topographic__elevation) }

/-- Operation (e): `total_time += dt`, advancing the run clock. -/
def tickOp {N : ℕ} (dt : ℚ) (s : SimState N) : SimState N :=
  { s with total_time := s.total_time + dt }

/-- The loop body of Code Block 7 of `channels_hillslopes_notebook.ipynb`,
transcribed statement by statement:

    z1[mg1.core_nodes] += uplift_rate[mg1.core_nodes] * dt
    ld.run_one_step(dt)
    frr.run_one_step()
    spr.run_one_step(dt)
    total_time += dt

(`print(total_time)` produces output only and mutates nothing). -/
def channelsStep {N : ℕ} (core : Fin N → Bool) (uplift_rate : Fin N → ℚ)
    (dt : ℚ) (ld : ℚ → (Fin N → ℚ) → Fin N → ℚ)
    (frr : (Fin N → ℚ) → (Fin N → ℚ) × (Fin N → ℚ))
    (spr : ℚ → (Fin N → ℚ) → (Fin N → ℚ) → (Fin N → ℚ) → Fin N → ℚ)
    (s : SimState N) : SimState N :=
  let z1 : Fin N → ℚ :=
    fun i => if core i then s.topographic__elevation i + uplift_rate i * dt
             else s.topographic__elevation i
  let z2 : Fin N → ℚ := ld dt z1
  let routed := frr z2
  let z3 : Fin N → ℚ := spr dt routed.1 routed.2 z2
  { topographic__elevation := z3,
    drainage_area := routed.1,
    topographic__steepest_slope := routed.2,
    total_time := s.total_time + dt }

/-- The loop body of Code Block 7 of the hillslope notebooks, transcribed
statement by statement:

    mg["node"]["topographic__elevation"][mg.core_nodes] += uplift_per_step
    diffuse.run_one_step(dt)
    time_counter += dt

(the plotting block guarded by `i == int(nt // 2)` reads fields and draws
figures only).  `diffuse` stands for the external `LinearDiffuser` or
`TaylorNonLinearDiffuser` component. -/
def hillslopeStep {N : ℕ} (core : Fin N → Bool) (uplift_per_step dt : ℚ)
    (diffuse : ℚ → (Fin N → ℚ) → Fin N → ℚ) (s : SimState N) : SimState N :=
  { s with
    topographic__elevation :=
      (diffuse dt (fun i =>
        if core i then s.topographic__elevation i + uplift_per_step
        else s.topographic__elevation i)),
    total_time := s.total_time + dt }

/-- `for ti in t:` driver of the channels notebook: iterate the loop body a
fixed number of times. -/
def runChannels {N : ℕ} (core : Fin N → Bool) (uplift_rate : Fin N → ℚ)
    (dt : ℚ) (ld : ℚ → (Fin N → ℚ) → Fin N → ℚ)
    (frr : (Fin N → ℚ) → (Fin N → ℚ) × (Fin N → ℚ))
    (spr : ℚ → (Fin N → ℚ) → (Fin N → ℚ) → (Fin N → ℚ) → Fin N → ℚ) :
    ℕ → SimState N → SimState N
  | 0, s => s
  | k + 1, s =>
      channelsStep core uplift_rate dt ld frr spr
        (runChannels core uplift_rate dt ld frr spr k s)

/-- `for i in range(nt):` driver of the hillslope notebooks. -/
def runHillslope {N : ℕ} (core : Fin N → Bool) (uplift_per_step dt : ℚ)
    (diffuse : ℚ → (Fin N → ℚ) → Fin N → ℚ) :
    ℕ → SimState N → SimState N
  | 0, s => s
  | k + 1, s =>
      hillslopeStep core uplift_per_step dt diffuse
        (runHillslope core uplift_per_step dt diffuse k s)

namespace Notebook

/-- Code Block 4 of the hillslope notebooks:
`dt = 0.5 * mg.dx * mg.dx / D`, the single precomputed stability-limited
timestep for the pure-diffusion runs. -/
def dt (dx D : ℚ) : ℚ := 0.5 * dx * dx / D

/-- Code Block 4 of the hillslope notebooks: `nt = int(runtime // dt)`,
the number of time steps.  Python's floor division `//` on positive reals
followed by `int(...)` is the floor of the quotient. -/
def nt (runtime dtv : ℚ) : ℤ := ⌊runtime / dtv⌋

/-- Code Block 4 of the hillslope notebooks:
`uplift_per_step = uplift_rate * dt`. -/
def uplift_per_step (uplift_rate dtv : ℚ) : ℚ := uplift_rate * dtv

/-- Code Block 5 of the hillslope notebooks:
`divide_loc = (mg.number_of_node_rows * mg.dx - mg.dx) / 2`. -/
def divide_loc (number_of_node_rows : ℕ) (dx : ℚ) : ℚ :=
  ((number_of_node_rows : ℚ) * dx - dx) / 2

/-- Code Block 5 of the hillslope notebooks:
`half_width = (mg.number_of_node_rows * mg.dx - mg.dx) / 2`. -/
def half_width (number_of_node_rows : ℕ) (dx : ℚ) : ℚ :=
  ((number_of_node_rows : ℚ) * dx - dx) / 2

/-- Code Block 5 of the hillslope notebooks: the analytical steady-state
profile
`zs = (uplift_rate / (2 * D)) * (np.power(half_width, 2) - np.power(ys - divide_loc, 2))`,
as a function of the cross-section coordinate `y`. -/
def zs (uplift_rate D : ℚ) (number_of_node_rows : ℕ) (dx y : ℚ) : ℚ :=
  (uplift_rate / (2 * D)) *
    (half_width number_of_node_rows dx ^ 2 -
      (y - divide_loc number_of_node_rows dx) ^ 2)

end Notebook

/-- The spec's closed-form parabolic steady-state profile, written from the
spec's words for the refinement comparison of claim C5:
`z(y) = (U/2D) * (L^2/4 - (y - L/2)^2)`, where `L` is the domain length
along the transport direction. -/
def zsSpecForm (U D L y : ℚ) : ℚ :=
  (U / (2 * D)) * (L ^ 2 / 4 - (y - L / 2) ^ 2)

/-- Python division: raises `ZeroDivisionError` when the divisor is zero,
otherwise returns the quotient. -/
def pyDiv (a b : ℚ) : Except String ℚ :=
  if b = 0 then Except.error "ZeroDivisionError" else Except.ok (a / b)

/-- The hillslope notebook's setup and run, Code Blocks 4 and 7 in
sequence, with Python division modelled fallibly: first
`dt = 0.5 * mg.dx * mg.dx / D` is computed (raising `ZeroDivisionError` when
`D = 0`, before any loop iteration executes), then `nt = int(runtime // dt)`
and `uplift_per_step = uplift_rate * dt`, and finally the loop runs `nt`
times from the initial elevation `z0` with the clock `time_counter = 0`. -/
def hillslopeNotebookRun {N : ℕ} (dx D uplift_rate runtime : ℚ)
    (core : Fin N → Bool) (diffuse : ℚ → (Fin N → ℚ) → Fin N → ℚ)
    (z0 : Fin N → ℚ) : Except String (SimState N) :=
  match pyDiv (0.5 * dx * dx) D with
  | Except.error e => Except.error e
  | Except.ok dtv =>
      Except.ok (runHillslope core (uplift_rate * dtv) dtv diffuse
        (Notebook.nt runtime dtv).toNat
        ⟨z0, fun _ => 0, fun _ => 0, 0⟩)

/-- Code Block 3 of the channels notebook: the initial elevation field is
all zeros plus a small noise array drawn from a seeded random generator
(`np.random.seed(56)`; `z1 = zeros + noise`).  The generator is modelled as
an abstract function from the seed to the noise array. -/
def initialElevation {N : ℕ} (rng : ℕ → Fin N → ℚ) (seed : ℕ) : Fin N → ℚ :=
  fun i => 0 + rng seed i

/-- Sum of a per-node field over all nodes of the grid. -/
def totalSum {N : ℕ} (z : Fin N → ℚ) : ℚ := ∑ i, z i

/-- Sum of a per-node field over the core nodes of the grid. -/
def coreSum {N : ℕ} (core : Fin N → Bool) (z : Fin N → ℚ) : ℚ :=
  ∑ i, if core i then z i else 0

/-- A concrete transport step on a 2-node grid that moves all mass from
node 0 to node 1: it only redistributes mass among nodes (the total sum is
conserved, so it never injects mass and removes none anywhere). -/
def moveAllMass : ℚ → (Fin 2 → ℚ) → Fin 2 → ℚ :=
  fun _ z i => if i = 0 then 0 else z 0 + z 1

/-- Concrete 2-node core marking for witnesses: node 0 is core, node 1 is
boundary. -/
def exCore : Fin 2 → Bool := fun i => decide (i = 0)

/-- Concrete initial state for witnesses: uniform elevation 5, zero derived
fields, clock 0. -/
def exState : SimState 2 := ⟨fun _ => 5, fun _ => 0, fun _ => 0, 0⟩

/-- Concrete no-op transport component for witnesses. -/
def idTransport : ℚ → (Fin 2 → ℚ) → Fin 2 → ℚ := fun _ z => z

/-- Concrete flow router for witnesses: returns the elevation itself as
both derived fields. -/
def exRouter : (Fin 2 → ℚ) → (Fin 2 → ℚ) × (Fin 2 → ℚ) := fun z => (z, z)

/-- Concrete no-op eroder for witnesses. -/
def idEroder : ℚ → (Fin 2 → ℚ) → (Fin 2 → ℚ) → (Fin 2 → ℚ) → Fin 2 → ℚ :=
  fun _ _ _ z => z

/-- **C2** Every iteration of the time-stepping driver performs exactly the
operations (a) uplift of core nodes, (b) transport step with `dt`,
(c) flow routing, (d) erosion, (e) clock advance by exactly `dt`, in this
order and nothing else: the channels loop body equals the composition
`tickOp ∘ erodeOp ∘ routeOp ∘ transportOp ∘ upliftOp`, the hillslope loop
body (which skips the optional steps (c) and (d)) equals
`tickOp ∘ transportOp ∘ upliftOp`, and each advances the clock by exactly
`dt`. -/
theorem C2_loop_body_is_ordered_composition {N : ℕ} (core : Fin N → Bool)
    (uplift_rate : Fin N → ℚ) (uplift_per_step dt : ℚ)
    (ld diffuse : ℚ → (Fin N → ℚ) → Fin N → ℚ)
    (frr : (Fin N → ℚ) → (Fin N → ℚ) × (Fin N → ℚ))
    (spr : ℚ → (Fin N → ℚ) → (Fin N → ℚ) → (Fin N → ℚ) → Fin N → ℚ)
    (s : SimState N) :
    channelsStep core uplift_rate dt ld frr spr s =
      tickOp dt (erodeOp spr dt (routeOp frr (transportOp ld dt
        (upliftOp core (fun i => uplift_rate i * dt) s))))
    ∧ hillslopeStep core uplift_per_step dt diffuse s =
      tickOp dt (transportOp diffuse dt
        (upliftOp core (fun _ => uplift_per_step) s))
    ∧ (channelsStep core uplift_rate dt ld frr spr s).total_time
        = s.total_time + dt
    ∧ (hillslopeStep core uplift_per_step dt diffuse s).total_time
        = s.total_time + dt := by
  refine ⟨?_, rfl, rfl, rfl⟩
  simp only [channelsStep, tickOp, erodeOp, routeOp, transportOp, upliftOp]

/-- **C3** The uplift step writes only the elevation entries indexed by core
nodes: a boundary node's elevation entry after the uplift step equals its
entry before it. -/
theorem C3_uplift_frames_boundary_nodes {N : ℕ} (core : Fin N → Bool)
    (inc : Fin N → ℚ) (s : SimState N) (i : Fin N) (h : core i = false) :
    (upliftOp core inc s).topographic__elevation i
      = s.topographic__elevation i := by
  simp [upliftOp, h]

/-- Witness for C3 at a concrete input: on a 2-node grid whose node 1 is a
boundary node, the uplift step leaves node 1's elevation at its initial
value 7. -/
theorem C3_uplift_frames_boundary_nodes_witness :
    (upliftOp (fun i => decide (i = (0 : Fin 2))) (fun _ => 1)
      ⟨fun _ => 7, fun _ => 0, fun _ => 0, 0⟩).topographic__elevation 1
      = 7 := by
  have h := C3_uplift_frames_boundary_nodes
    (fun i => decide (i = (0 : Fin 2))) (fun _ => 1)
    ⟨fun _ => 7, fun _ => 0, fun _ => 0, 0⟩ 1 (by decide)
  simpa using h

/-- Helper: under a no-op transport and a no-op eroder, one channels loop
iteration changes the elevation by exactly the per-node uplift increment on
core nodes and not at all elsewhere. -/
lemma channelsStep_elev_noop {N : ℕ} (core : Fin N → Bool)
    (uplift_rate : Fin N → ℚ) (dt : ℚ)
    (ld : ℚ → (Fin N → ℚ) → Fin N → ℚ)
    (frr : (Fin N → ℚ) → (Fin N → ℚ) × (Fin N → ℚ))
    (spr : ℚ → (Fin N → ℚ) → (Fin N → ℚ) → (Fin N → ℚ) → Fin N → ℚ)
    (hld : ∀ d z, ld d z = z) (hspr : ∀ d a sl z, spr d a sl z = z)
    (s : SimState N) (i : Fin N) :
    (channelsStep core uplift_rate dt ld frr spr s).topographic__elevation i
      = if core i then s.topographic__elevation i + uplift_rate i * dt
        else s.topographic__elevation i := by
  simp [channelsStep, hld, hspr]

/-- Helper: elevation after `k` channels iterations with no-op transport and
no-op erosion. -/
lemma runChannels_elev_noop {N : ℕ} (core : Fin N → Bool)
    (uplift_rate : Fin N → ℚ) (dt : ℚ)
    (ld : ℚ → (Fin N → ℚ) → Fin N → ℚ)
    (frr : (Fin N → ℚ) → (Fin N → ℚ) × (Fin N → ℚ))
    (spr : ℚ → (Fin N → ℚ) → (Fin N → ℚ) → (Fin N → ℚ) → Fin N → ℚ)
    (hld : ∀ d z, ld d z = z) (hspr : ∀ d a sl z, spr d a sl z = z)
    (k : ℕ) (s : SimState N) (i : Fin N) :
    (runChannels core uplift_rate dt ld frr spr k s).topographic__elevation i
      = if core i then
          s.topographic__elevation i + (k : ℚ) * (uplift_rate i * dt)
        else s.topographic__elevation i := by
  induction k with
  | zero => simp [runChannels]
  | succ k ih =>
      show (channelsStep core uplift_rate dt ld frr spr
        (runChannels core uplift_rate dt ld frr spr k s)).topographic__elevation i = _
      rw [channelsStep_elev_noop core uplift_rate dt ld frr spr hld hspr]
      rw [ih]
      by_cases hc : core i
      · simp only [hc, if_true]
        push_cast
        ring
      · simp [hc]

/-- Helper: elevation after `k` hillslope iterations with a no-op diffuser. -/
lemma runHillslope_elev_noop {N : ℕ} (core : Fin N → Bool)
    (uplift_per_step dt : ℚ) (diffuse : ℚ → (Fin N → ℚ) → Fin N → ℚ)
    (hdif : ∀ d z, diffuse d z = z)
    (k : ℕ) (s : SimState N) (i : Fin N) :
    (runHillslope core uplift_per_step dt diffuse k s).topographic__elevation i
      = if core i then s.topographic__elevation i + (k : ℚ) * uplift_per_step
        else s.topographic__elevation i := by
  induction k with
  | zero => simp [runHillslope]
  | succ k ih =>
      show (hillslopeStep core uplift_per_step dt diffuse
        (runHillslope core uplift_per_step dt diffuse k s)).topographic__elevation i = _
      rw [hillslopeStep, hdif]
      simp only []
      rw [ih]
      by_cases hc : core i
      · simp only [hc, if_true]
        push_cast
        ring
      · simp [hc]

/-- **C1** When the transport and erosion steps are no-ops (zero
diffusivity/erosion), `k` iterations of the time-stepping loop leave every
core node's elevation at its initial value plus `k * U * dt` (for uniform
uplift rate `U` and timestep `dt`, so per-step increments `U * dt`), and
leave every boundary node's elevation exactly unchanged — in both the
channels loop and the hillslope loop. -/
theorem C1_uplift_only_evolution {N : ℕ} (core : Fin N → Bool) (U dt : ℚ)
    (ld diffuse : ℚ → (Fin N → ℚ) → Fin N → ℚ)
    (frr : (Fin N → ℚ) → (Fin N → ℚ) × (Fin N → ℚ))
    (spr : ℚ → (Fin N → ℚ) → (Fin N → ℚ) → (Fin N → ℚ) → Fin N → ℚ)
    (hld : ∀ d z, ld d z = z) (hspr : ∀ d a sl z, spr d a sl z = z)
    (hdif : ∀ d z, diffuse d z = z)
    (k : ℕ) (s : SimState N) (i : Fin N) :
    ((core i = true →
        (runChannels core (fun _ => U) dt ld frr spr k s).topographic__elevation i
          = s.topographic__elevation i + (k : ℚ) * U * dt)
      ∧ (core i = false →
        (runChannels core (fun _ => U) dt ld frr spr k s).topographic__elevation i
          = s.topographic__elevation i))
    ∧ ((core i = true →
        (runHillslope core (U * dt) dt diffuse k s).topographic__elevation i
          = s.topographic__elevation i + (k : ℚ) * U * dt)
      ∧ (core i = false →
        (runHillslope core (U * dt) dt diffuse k s).topographic__elevation i
          = s.topographic__elevation i)) := by
  have hc := runChannels_elev_noop core (fun _ => U) dt ld frr spr hld hspr k s i
  have hh := runHillslope_elev_noop core (U * dt) dt diffuse hdif k s i
  constructor
  · constructor
    · intro h
      rw [hc, h]
      simp [mul_assoc]
    · intro h
      rw [hc, h]
      simp
  · constructor
    · intro h
      rw [hh, h]
      simp [mul_assoc]
    · intro h
      rw [hh, h]
      simp

/-- Witness for C1 at a concrete input: 2-node grid with core node 0 and
boundary node 1, initial elevation 5 everywhere, uplift rate 2, timestep 3,
no-op transport and erosion, 2 iterations: the core node ends at
5 + 2*2*3 = 17 and the boundary node stays at 5, in both loops. -/
theorem C1_uplift_only_evolution_witness :
    ((runChannels exCore (fun _ => 2) 3 idTransport exRouter idEroder 2
        exState).topographic__elevation 0 = 17)
    ∧ ((runChannels exCore (fun _ => 2) 3 idTransport exRouter idEroder 2
        exState).topographic__elevation 1 = 5)
    ∧ ((runHillslope exCore (2 * 3) 3 idTransport 2
        exState).topographic__elevation 0 = 17)
    ∧ ((runHillslope exCore (2 * 3) 3 idTransport 2
        exState).topographic__elevation 1 = 5) := by
  have h0 := C1_uplift_only_evolution exCore 2 3 idTransport idTransport
    exRouter idEroder (fun _ _ => rfl) (fun _ _ _ _ => rfl) (fun _ _ => rfl)
    2 exState 0
  have h1 := C1_uplift_only_evolution exCore 2 3 idTransport idTransport
    exRouter idEroder (fun _ _ => rfl) (fun _ _ _ _ => rfl) (fun _ _ => rfl)
    2 exState 1
  refine ⟨?_, ?_, ?_, ?_⟩
  · rw [h0.1.1 (by decide)]
    norm_num [exState]
  · rw [h1.1.2 (by decide)]
    rfl
  · rw [h0.2.1 (by decide)]
    norm_num [exState]
  · rw [h1.2.2 (by decide)]
    rfl

/-- **C8** Continuation equals one longer run: running the driver loop for
`k1` iterations and then re-invoking it for `k2` further iterations without
reinitializing the elevation field or the run clock yields exactly the same
state (elevation field and run clock) as a single run of `k1 + k2`
iterations, for both loops. -/
theorem C8_continuation_equals_longer_run {N : ℕ} (core : Fin N → Bool)
    (uplift_rate : Fin N → ℚ) (uplift_per_step dt : ℚ)
    (ld diffuse : ℚ → (Fin N → ℚ) → Fin N → ℚ)
    (frr : (Fin N → ℚ) → (Fin N → ℚ) × (Fin N → ℚ))
    (spr : ℚ → (Fin N → ℚ) → (Fin N → ℚ) → (Fin N → ℚ) → Fin N → ℚ)
    (k1 k2 : ℕ) (s : SimState N) :
    runChannels core uplift_rate dt ld frr spr (k1 + k2) s
      = runChannels core uplift_rate dt ld frr spr k2
          (runChannels core uplift_rate dt ld frr spr k1 s)
    ∧ runHillslope core uplift_per_step dt diffuse (k1 + k2) s
      = runHillslope core uplift_per_step dt diffuse k2
          (runHillslope core uplift_per_step dt diffuse k1 s) := by
  constructor
  · induction k2 with
    | zero => rfl
    | succ k ih =>
        show channelsStep core uplift_rate dt ld frr spr
          (runChannels core uplift_rate dt ld frr spr (k1 + k) s) = _
        rw [ih]
        rfl
  · induction k2 with
    | zero => rfl
    | succ k ih =>
        show hillslopeStep core uplift_per_step dt diffuse
          (runHillslope core uplift_per_step dt diffuse (k1 + k) s) = _
        rw [ih]
        rfl

/-- **C4** The driver is deterministic: two runs of the same fixed number of
iterations, started from the same initial elevation field (zeros plus noise
drawn from the same fixed seed) with the same parameters, produce identical
elevation arrays entry by entry. -/
theorem C4_determinism {N : ℕ} (core : Fin N → Bool)
    (uplift_rate : Fin N → ℚ) (dt : ℚ)
    (ld : ℚ → (Fin N → ℚ) → Fin N → ℚ)
    (frr : (Fin N → ℚ) → (Fin N → ℚ) × (Fin N → ℚ))
    (spr : ℚ → (Fin N → ℚ) → (Fin N → ℚ) → (Fin N → ℚ) → Fin N → ℚ)
    (k : ℕ) (rng : ℕ → Fin N → ℚ) (seed1 seed2 : ℕ) (h : seed1 = seed2)
    (i : Fin N) :
    (runChannels core uplift_rate dt ld frr spr k
        ⟨initialElevation rng seed1, fun _ => 0, fun _ => 0, 0⟩).topographic__elevation i
      = (runChannels core uplift_rate dt ld frr spr k
        ⟨initialElevation rng seed2, fun _ => 0, fun _ => 0, 0⟩).topographic__elevation i := by
  subst h
  rfl

/-- Witness for C4 at a concrete input: with seed 56 both runs give the same
entry at node 0. -/
theorem C4_determinism_witness :
    (runChannels exCore (fun _ => 1) 1 idTransport exRouter idEroder 1
        ⟨initialElevation (fun s _ => (s : ℚ) / 1000) 56,
          fun _ => 0, fun _ => 0, 0⟩).topographic__elevation 0
      = (runChannels exCore (fun _ => 1) 1 idTransport exRouter idEroder 1
        ⟨initialElevation (fun s _ => (s : ℚ) / 1000) 56,
          fun _ => 0, fun _ => 0, 0⟩).topographic__elevation 0 :=
  C4_determinism exCore (fun _ => 1) 1 idTransport exRouter idEroder 1
    (fun s _ => (s : ℚ) / 1000) 56 56 rfl 0

/-- **C5** The notebooks' analytical steady-state profile
`zs = (U/(2*D)) * (half_width^2 - (y - divide_loc)^2)` with
`divide_loc = half_width = (number_of_node_rows*dx - dx)/2` is pointwise
equal to the spec's closed-form parabolic profile
`z(y) = (U/(2*D)) * (L^2/4 - (y - L/2)^2)` with
`L = number_of_node_rows*dx - dx`, for every `y`, every uplift rate `U` and
every diffusivity `D > 0`. -/
theorem C5_analytical_profile_refines_spec (U D : ℚ)
    (number_of_node_rows : ℕ) (dx y : ℚ) (hD : 0 < D) :
    Notebook.zs U D number_of_node_rows dx y
      = zsSpecForm U D ((number_of_node_rows : ℚ) * dx - dx) y := by
  simp only [Notebook.zs, Notebook.half_width, Notebook.divide_loc,
    zsSpecForm]
  ring

/-- Witness for C5 at a concrete input: the 41-row grid with spacing 5
(`L = 200`), `U = 1`, `D = 1`, at `y = 7`. -/
theorem C5_analytical_profile_refines_spec_witness :
    Notebook.zs 1 1 41 5 7 = zsSpecForm 1 1 200 7 := by
  have h := C5_analytical_profile_refines_spec 1 1 41 5 7 (by norm_num)
  have hL : ((41 : ℕ) : ℚ) * 5 - 5 = 200 := by norm_num
  rw [hL] at h
  exact h

/-- **C7** For the pure-diffusion runs, the timestep is the single
precomputed constant `dt = 0.5 * dx * dx / D`, exactly one half of
(cell spacing)^2 / diffusivity, for every cell spacing `dx` and every
diffusivity `D > 0`. -/
theorem C7_dt_is_half_stability_ratio (dx D : ℚ) (hD : 0 < D) :
    Notebook.dt dx D = dx * dx / D / 2 := by
  simp only [Notebook.dt]
  rw [show (0.5 : ℚ) = 1 / 2 by norm_num]
  ring

/-- Witness for C7 at a concrete input: the notebooks' values `dx = 5`,
`D = 1/100`. -/
theorem C7_dt_is_half_stability_ratio_witness :
    Notebook.dt 5 (1 / 100) = 5 * 5 / (1 / 100) / 2 :=
  C7_dt_is_half_stability_ratio 5 (1 / 100) (by norm_num)

/-- **C9** For diffusivity `D = 0`, the timestep computation
`dt = 0.5 * mg.dx * mg.dx / D` raises `ZeroDivisionError` before any loop
iteration executes: the whole hillslope notebook run returns that error
(and hence no mutated elevation field), for every grid, initial field and
remaining parameters, with no repository code catching or recovering from
it. -/
theorem C9_zero_diffusivity_raises {N : ℕ} (dx uplift_rate runtime D : ℚ)
    (core : Fin N → Bool) (diffuse : ℚ → (Fin N → ℚ) → Fin N → ℚ)
    (z0 : Fin N → ℚ) (hD : D = 0) :
    hillslopeNotebookRun dx D uplift_rate runtime core diffuse z0
      = Except.error "ZeroDivisionError" := by
  subst hD
  simp [hillslopeNotebookRun, pyDiv]

/-- Witness for C9 at a concrete input: the 41-row notebook parameters with
`D = 0` on a 2-node grid. -/
theorem C9_zero_diffusivity_raises_witness :
    hillslopeNotebookRun 5 0 (1 / 10000) 1000000 exCore idTransport
      (fun _ => 0) = Except.error "ZeroDivisionError" :=
  C9_zero_diffusivity_raises 5 (1 / 10000) 1000000 0 exCore idTransport
    (fun _ => 0) rfl

/-- Helper: the run clock after `k` hillslope iterations started at clock
`t0` is `t0 + k * dt`. -/
lemma runHillslope_total_time {N : ℕ} (core : Fin N → Bool)
    (uplift_per_step dtv : ℚ) (diffuse : ℚ → (Fin N → ℚ) → Fin N → ℚ)
    (k : ℕ) (s : SimState N) :
    (runHillslope core uplift_per_step dtv diffuse k s).total_time
      = s.total_time + (k : ℚ) * dtv := by
  induction k with
  | zero => simp [runHillslope]
  | succ k ih =>
      show (hillslopeStep core uplift_per_step dtv diffuse
        (runHillslope core uplift_per_step dtv diffuse k s)).total_time = _
      rw [hillslopeStep]
      simp only []
      rw [ih]
      push_cast
      ring

/-- **C10** The iteration count is `nt = int(runtime // dt)`, the floor of
`runtime / dt`: the final run clock `nt * dt` never exceeds the requested
runtime, and is strictly less than it whenever `dt` does not divide
`runtime` exactly; with the default `runtime = 10^6`, `dx = 5` and
`D = 1/100`, `dt = 1250`, `nt = 800`, and a full run of `nt` steps advances
the clock by exactly the requested runtime `10^6`. -/
theorem C10_iteration_count (runtime dtv : ℚ) (h : 0 < dtv) :
    ((Notebook.nt runtime dtv : ℚ) * dtv ≤ runtime)
    ∧ ((¬ ∃ m : ℤ, runtime = (m : ℚ) * dtv) →
        (Notebook.nt runtime dtv : ℚ) * dtv < runtime)
    ∧ Notebook.dt 5 (1 / 100) = 1250
    ∧ Notebook.nt 1000000 1250 = 800
    ∧ (∀ (N : ℕ) (core : Fin N → Bool)
        (diffuse : ℚ → (Fin N → ℚ) → Fin N → ℚ) (s : SimState N),
        (runHillslope core (Notebook.uplift_per_step (1 / 10000) 1250) 1250
          diffuse (Notebook.nt 1000000 1250).toNat s).total_time
          = s.total_time + 1000000) := by
  have hne : dtv ≠ 0 := ne_of_gt h
  have hle : (Notebook.nt runtime dtv : ℚ) * dtv ≤ runtime := by
    have h1 : ((⌊runtime / dtv⌋ : ℚ)) ≤ runtime / dtv := Int.floor_le _
    have h2 : ((⌊runtime / dtv⌋ : ℚ)) * dtv ≤ (runtime / dtv) * dtv :=
      mul_le_mul_of_nonneg_right h1 h.le
    rw [div_mul_cancel₀ runtime hne] at h2
    exact h2
  have hnt : Notebook.nt 1000000 1250 = 800 := by
    rw [Notebook.nt]
    rw [show (1000000 : ℚ) / 1250 = 800 by norm_num]
    exact Int.floor_intCast 800
  refine ⟨hle, ?_, ?_, hnt, ?_⟩
  · intro hnd
    rcases lt_or_eq_of_le hle with hlt | heq
    · exact hlt
    · exact absurd ⟨Notebook.nt runtime dtv, heq.symm⟩ hnd
  · rw [Notebook.dt]
    norm_num
  · intro N core diffuse s
    rw [runHillslope_total_time, hnt]
    rw [show (800 : ℤ).toNat = 800 from rfl]
    norm_num

/-- Witness for C10 at a concrete input: `runtime = 3`, `dt = 2` (which does
not divide 3), where `nt * dt = 2 ≤ 3` and indeed `2 < 3`. -/
theorem C10_iteration_count_witness :
    ((Notebook.nt 3 2 : ℚ) * 2 ≤ 3) ∧ ((Notebook.nt 3 2 : ℚ) * 2 < 3) := by
  have h := C10_iteration_count 3 2 (by norm_num)
  refine ⟨h.1, h.2.1 ?_⟩
  rintro ⟨m, hm⟩
  have h2 : ((2 * m : ℤ) : ℚ) = ((3 : ℤ) : ℚ) := by
    push_cast
    linarith
  have h3 : (2 * m : ℤ) = 3 := by exact_mod_cast h2
  omega

/-- Counterexample to C6 as stated: on a 2-node grid (core node 0, boundary
node 1) with uplift increment 1 and a transport step `moveAllMass` that only
redistributes mass among nodes (its total sum over all nodes is conserved,
so it never injects and never removes mass anywhere), starting from
elevation (100, 0), one iteration takes the sum over core nodes from 100
down to 0 while the state still changes (steady state is not reached).  So
even for transport steps satisfying the claim's hypotheses, the core-node
sum is not non-decreasing. -/
theorem C6_core_sum_counterexample :
    ¬ (∀ (transport : ℚ → (Fin 2 → ℚ) → Fin 2 → ℚ),
        (∀ dtv z, totalSum (transport dtv z) = totalSum z) →
        ∀ s : SimState 2,
          hillslopeStep exCore 1 1 transport s ≠ s →
          coreSum exCore s.topographic__elevation ≤
            coreSum exCore
              (hillslopeStep exCore 1 1 transport s).topographic__elevation) := by
  intro h
  have hcons : ∀ dtv z, totalSum (moveAllMass dtv z) = totalSum z := by
    intro dtv z
    simp [moveAllMass, totalSum, Fin.sum_univ_two]
  have hne : hillslopeStep exCore 1 1 moveAllMass
      (⟨fun i => if i = 0 then 100 else 0, fun _ => 0, fun _ => 0, 0⟩ :
        SimState 2)
      ≠ ⟨fun i => if i = 0 then 100 else 0, fun _ => 0, fun _ => 0, 0⟩ := by
    intro heq
    have h0 := congrArg (fun t => t.topographic__elevation 0) heq
    simp [hillslopeStep, moveAllMass, exCore] at h0
  have hle := h moveAllMass hcons
    ⟨fun i => if i = 0 then 100 else 0, fun _ => 0, fun _ => 0, 0⟩ hne
  simp [coreSum, hillslopeStep, moveAllMass, exCore,
    Fin.sum_univ_two] at hle
  linarith

/-- **C6 amended** With nonnegative uplift and a transport step that
conserves the total summed elevation over all nodes (pure redistribution,
no removal), the total summed elevation over all nodes — rather than over
core nodes only — is non-decreasing from one iteration to the next. -/
theorem C6_total_sum_nondecreasing {N : ℕ} (core : Fin N → Bool)
    (uplift_per_step dtv : ℚ) (transport : ℚ → (Fin N → ℚ) → Fin N → ℚ)
    (s : SimState N)
    (hcons : ∀ d z, totalSum (transport d z) = totalSum z)
    (hU : 0 ≤ uplift_per_step) :
    totalSum s.topographic__elevation ≤
      totalSum ((hillslopeStep core uplift_per_step dtv
        transport s).topographic__elevation) := by
  have hstep : (hillslopeStep core uplift_per_step dtv
      transport s).topographic__elevation
      = transport dtv (fun i =>
          if core i then s.topographic__elevation i + uplift_per_step
          else s.topographic__elevation i) := rfl
  rw [hstep, hcons]
  unfold totalSum
  apply Finset.sum_le_sum
  intro i _
  by_cases hc : core i
  · simp only [hc, if_true]
    linarith
  · simp [hc]

/-- Witness for the amended C6 at a concrete input: uplift 1, identity
transport, uniform initial elevation 5 on the 2-node grid. -/
theorem C6_total_sum_nondecreasing_witness :
    totalSum exState.topographic__elevation ≤
      totalSum ((hillslopeStep exCore 1 1
        idTransport exState).topographic__elevation) :=
  C6_total_sum_nondecreasing exCore 1 1 idTransport exState
    (fun _ _ => rfl) (by norm_num)
